import Mathlib

/-!
Verification of usage.c, a launcher that forks a child process, execs the
requested command inside the child, waits for the child, queries getrusage
for the terminated children, and prints a fixed resource-usage report.

Modelling choices:
- Machine longs and time_t values are unbounded Int (overflow is out of
  scope for the claims considered here); C integer division on long is
  truncating division, Int.tdiv, and is undefined behaviour on a zero
  divisor, modelled by an Option result (cDiv).
- The OS calls (fork, execvp, time, getrusage, sysconf) are oracled by an
  environment record: each call result is an input of the model.  Failure
  of a call carries the strerror text that perror would print.
- Each process is modelled by the triple it produces: exit status, lines
  written to standard output, lines written to standard error.  perror(s)
  writes s, then ": ", then the error text, so the diagnostics below carry
  a doubled colon exactly as the real tool prints them.
- A whole tool invocation (runTool) combines the parent and the child: the
  exit status observed by the invoker is the one of the parent, standard
  output holds the parent report lines, and standard error collects the
  child diagnostic (when the exec fails) followed by the parent
  diagnostics.  An undefined-behaviour execution is the value none.
-/

namespace Usage

/-- The fields of struct rusage that usage.c reads; for the two timevals
only the tv_sec component is read by the program. -/
structure Rusage where
  ru_utime_sec : Int
  ru_stime_sec : Int
  ru_maxrss : Int
  ru_ixrss : Int
  ru_idrss : Int
  ru_isrss : Int
  ru_inblock : Int
  ru_oublock : Int
deriving DecidableEq

/-- C division of longs: truncating (round toward zero), undefined on a
zero divisor. -/
def cDiv (a b : Int) : Option Int :=
  if b = 0 then none else some (a.tdiv b)

/-- Embedding of findMemTickSize from usage.c: kbSize = size /
ticksPerSecond / totalTime.  The sysconf result is passed in as the
ticksPerSecond argument; the source applies no guard to it. -/
def findMemTickSize (ticksPerSecond totalTime size : Int) : Option Int :=
  (cDiv size ticksPerSecond).bind fun q => cDiv q totalTime

/-- The totalTime local of main: user seconds minus system seconds,
clamped to 1 when the difference is below 1. -/
def totalTimeOf (ru : Rusage) : Int :=
  let t := ru.ru_utime_sec - ru.ru_stime_sec
  if t < 1 then 1 else t

/-- The codeSize local of main. -/
def codeSizeOf (ticks : Int) (ru : Rusage) : Option Int :=
  findMemTickSize ticks (totalTimeOf ru) ru.ru_ixrss

/-- The dataSize local of main. -/
def dataSizeOf (ticks : Int) (ru : Rusage) : Option Int :=
  findMemTickSize ticks (totalTimeOf ru) ru.ru_idrss

/-- The stackSize local of main. -/
def stackSizeOf (ticks : Int) (ru : Rusage) : Option Int :=
  findMemTickSize ticks (totalTimeOf ru) ru.ru_isrss

/-- The numeric values main prints on the success path, one field per
printf argument, in source order. -/
structure Report where
  userCpu : Int
  systemCpu : Int
  totalCpu : Int
  wall : Int
  memKB : Int
  memMB : Int
  memGB : Int
  codeKB : Int
  codeMB : Int
  dataKB : Int
  dataMB : Int
  stackKB : Int
  stackMB : Int
  fsReads : Int
  fsWrites : Int
deriving DecidableEq

/-- The report main computes from the rusage record, the two timestamps
and the sysconf tick rate.  none when one of the divisions of
findMemTickSize is undefined (zero tick rate). -/
def mkReport (ticks startTime endTime : Int) (ru : Rusage) : Option Report :=
  (codeSizeOf ticks ru).bind fun code =>
  (dataSizeOf ticks ru).bind fun data =>
  (stackSizeOf ticks ru).bind fun stack =>
  some ⟨ru.ru_utime_sec, ru.ru_stime_sec,
        ru.ru_utime_sec + ru.ru_stime_sec,
        endTime - startTime,
        ru.ru_maxrss, ru.ru_maxrss.tdiv 1024, (ru.ru_maxrss.tdiv 1024).tdiv 1024,
        code, code.tdiv 1024,
        data, data.tdiv 1024,
        stack, stack.tdiv 1024,
        ru.ru_inblock, ru.ru_oublock⟩

/-- printf format %6.2f applied to an integral double (difftime of two
whole-second timestamps): the decimal representation followed by two zero
decimals, left padded with spaces to a field width of at least 6. -/
def formatFixed2 (d : Int) : String :=
  let base := toString d ++ ".00"
  String.mk (List.replicate (6 - base.length) ' ') ++ base

/-- The standard-output lines of main on the success path, in printf
order; an empty string is the blank line a bare newline printf emits. -/
def renderReport (r : Report) : List String :=
  ["User CPU time (s): " ++ toString r.userCpu,
   "System CPU time (s): " ++ toString r.systemCpu,
   "Total CPU time (s): " ++ toString r.totalCpu,
   "Total Wall time (s): " ++ formatFixed2 r.wall,
   "",
   "Maximum memory (KB): " ++ toString r.memKB,
   "Maximum memory (MB): " ++ toString r.memMB,
   "Maximum memory (GB): " ++ toString r.memGB,
   "",
   "Maximum code (KB): " ++ toString r.codeKB,
   "Maximum code (MB): " ++ toString r.codeMB,
   "",
   "Maximum data (KB): " ++ toString r.dataKB,
   "Maximum data (MB): " ++ toString r.dataMB,
   "",
   "Maximum stack (KB): " ++ toString r.stackKB,
   "Maximum stack (MB): " ++ toString r.stackMB,
   "",
   "Number of FS Reads : " ++ toString r.fsReads,
   "Number of FS Writes: " ++ toString r.fsWrites]

/-- One perror diagnostic line: the argument string, then ": ", then the
error description. -/
def perrorLine (stage err : String) : String :=
  stage ++ ": " ++ err

/-- Results of the OS calls made during one invocation, together with the
C argument vector (argv entries; argc is the list length).  Exec results
concern the child; a successful execvp never returns. -/
structure Env where
  argv : List String
  forkRes : Except String Unit
  execRes : Except String Unit
  startRes : Except String Int
  endRes : Except String Int
  rusageRes : Except String Rusage
  ticksPerSecond : Int

/-- Reading cell i of a C argument vector with argc entries: cells 0 to
argc - 1 hold the arguments, cell argc holds the terminating null pointer
(guaranteed by the C standard), and any access past cell argc is out of
bounds, hence undefined. -/
def cArgvAccess (argv : List String) (i : Nat) : Option (Option String) :=
  if h : i < argv.length then some (some (argv.get ⟨i, h⟩))
  else if i = argv.length then some none
  else none

/-- What the child process does after fork returns 0. -/
inductive ChildOutcome where
  | execed : ChildOutcome
  | failed : Int → List String → ChildOutcome
deriving DecidableEq

/-- Embedding of the fork case 0 branch of main: the child reads argv[1]
(undefined if out of bounds) and calls execvp(argv[1], argv + 1).  On
success the image is replaced by the command; on failure the child prints
a perror diagnostic on standard error and returns -1.  The response of
execvp, including its response to a null pointer argument, is oracled by
the environment. -/
def runChild (E : Env) : Option ChildOutcome :=
  match cArgvAccess E.argv 1 with
  | none => none
  | some _ =>
    match E.execRes with
    | .ok _ => some ChildOutcome.execed
    | .error e => some (ChildOutcome.failed (-1) [perrorLine "Exec failed: " e])

/-- Embedding of the parent path of main after a successful fork: read the
start time, wait for the child (the status is collected and ignored), read
the end time, query getrusage, then print the report and return 0.  Each
failing call yields one diagnostic on standard error and exit status -1;
the result triple is exit status, standard output, standard error. -/
def runParentBody (E : Env) : Option (Int × List String × List String) :=
  match E.startRes with
  | .error e => some (-1, [], [perrorLine "Failed to get start time: " e])
  | .ok startTime =>
    match E.endRes with
    | .error e => some (-1, [], [perrorLine "Failed to get end time: " e])
    | .ok endTime =>
      match E.rusageRes with
      | .error e => some (-1, [], [perrorLine "Getrusage failed: " e])
      | .ok ru =>
        match mkReport E.ticksPerSecond startTime endTime ru with
        | none => none
        | some r => some (0, renderReport r, [])

/-- One whole invocation of the tool.  If fork fails, the single process
prints a diagnostic and exits -1.  Otherwise the exit status the invoker
observes is the one of the parent, standard output holds the parent
output, and standard error collects the child diagnostic (when the exec
failed) followed by the parent diagnostics.  none models an execution that
reaches undefined behaviour in our code. -/
def runTool (E : Env) : Option (Int × List String × List String) :=
  match E.forkRes with
  | .error e => some (-1, [], [perrorLine "Fork failed: " e])
  | .ok _ =>
    match runChild E with
    | none => none
    | some co =>
      let childErr := match co with
        | .execed => []
        | .failed _ es => es
      match runParentBody E with
      | none => none
      | some (status, out, err) => some (status, out, childErr ++ err)

/-- An all-zero rusage record, what getrusage reports when no child
consumed measurable resources (for instance when the exec failed at
once). -/
def ruZero : Rusage := ⟨0, 0, 0, 0, 0, 0, 0, 0⟩

/-- The report computed from ruZero with a start of 100 and an end of
105. -/
def rZero : Report := ⟨0, 0, 0, 5, 0, 0, 0, 0, 0, 0, 0, 0, 0, 0, 0⟩

/-- Environment of a run whose exec fails: every other call succeeds,
getrusage reports zero usage, the tick rate is 100. -/
def envExecFail : Env :=
  ⟨["usage", "/no/such/binary"], .ok (), .error "No such file or directory",
   .ok 100, .ok 105, .ok ruZero, 100⟩

/-- Environment of a run invoked with no command argument (argc = 1), on
a platform whose execvp rejects a null pointer with an error return. -/
def envNoArg : Env :=
  ⟨["usage"], .ok (), .error "Bad address", .ok 100, .ok 105, .ok ruZero, 100⟩

/-- Environment of a run whose fork fails. -/
def envForkFail : Env :=
  ⟨["usage", "true"], .error "Resource temporarily unavailable",
   .ok (), .ok 100, .ok 105, .ok ruZero, 100⟩

/-- Environment of a fully successful run. -/
def envOk : Env :=
  ⟨["usage", "true"], .ok (), .ok (), .ok 100, .ok 105, .ok ruZero, 100⟩

/-- Environment of a run whose getrusage call fails. -/
def envRusageFail : Env :=
  ⟨["usage", "true"], .ok (), .ok (), .ok 100, .ok 105,
   .error "No such process", 100⟩

/-- A nonzero rusage record used to exercise the arithmetic. -/
def ru1 : Rusage := ⟨5, 2, 3000, 4000, 5000, 6000, 7, 8⟩

/-- The report computed from ru1 with a start of 100, an end of 105 and a
tick rate of 100. -/
def r1 : Report := ⟨5, 2, 7, 5, 3000, 2, 0, 13, 0, 16, 0, 20, 0, 7, 8⟩

/-- The totalTime local is always positive: the clamp replaces every value
below 1 by 1. -/
lemma totalTimeOf_pos (ru : Rusage) : 0 < totalTimeOf ru := by
  simp only [totalTimeOf]
  split <;> omega

/-- Inversion of mkReport: a computed report determines the three derived
sizes and every field of the record. -/
lemma mkReport_eq_some {ticks s t : Int} {ru : Rusage} {r : Report}
    (h : mkReport ticks s t ru = some r) :
    ∃ code data stack, codeSizeOf ticks ru = some code ∧
      dataSizeOf ticks ru = some data ∧ stackSizeOf ticks ru = some stack ∧
      r = ⟨ru.ru_utime_sec, ru.ru_stime_sec,
        ru.ru_utime_sec + ru.ru_stime_sec,
        t - s,
        ru.ru_maxrss, ru.ru_maxrss.tdiv 1024, (ru.ru_maxrss.tdiv 1024).tdiv 1024,
        code, code.tdiv 1024,
        data, data.tdiv 1024,
        stack, stack.tdiv 1024,
        ru.ru_inblock, ru.ru_oublock⟩ := by
  simp only [mkReport, Option.bind_eq_some, Option.some.injEq] at h
  obtain ⟨code, hc, data, hd, stack, hst, hr⟩ := h
  exact ⟨code, data, stack, hc, hd, hst, hr.symm⟩

/-- Reading a cell of the argument vector at an index up to argc is in
bounds (the cell at argc holds the terminating null pointer). -/
lemma cArgvAccess_of_le {argv : List String} {i : Nat} (h : i ≤ argv.length) :
    ∃ v, cArgvAccess argv i = some v := by
  unfold cArgvAccess
  rcases lt_or_eq_of_le h with h1 | h1
  · simp [h1]
  · simp [h1, lt_irrefl]

/-- C1: the totalTime divisor is the reported user CPU seconds minus the
reported system CPU seconds, clamped to 1 whenever that difference is
below 1, hence always positive; and each derived size equals
rawField / ticksPerSecond / totalTime with truncating integer division,
whenever the tick rate is nonzero. -/
theorem derived_size_computation (ticks : Int) (ru : Rusage) (h : ticks ≠ 0) :
    0 < totalTimeOf ru ∧
    totalTimeOf ru = (if ru.ru_utime_sec - ru.ru_stime_sec < 1 then 1
                      else ru.ru_utime_sec - ru.ru_stime_sec) ∧
    codeSizeOf ticks ru = some ((ru.ru_ixrss.tdiv ticks).tdiv (totalTimeOf ru)) ∧
    dataSizeOf ticks ru = some ((ru.ru_idrss.tdiv ticks).tdiv (totalTimeOf ru)) ∧
    stackSizeOf ticks ru = some ((ru.ru_isrss.tdiv ticks).tdiv (totalTimeOf ru)) := by
  have hne : totalTimeOf ru ≠ 0 := (totalTimeOf_pos ru).ne'
  refine ⟨totalTimeOf_pos ru, rfl, ?_, ?_, ?_⟩ <;>
    simp [codeSizeOf, dataSizeOf, stackSizeOf, findMemTickSize, cDiv, h, hne]

/-- Witness for C1 at tick rate 100 on a concrete rusage record. -/
theorem derived_size_computation_witness :
    0 < totalTimeOf ru1 ∧
    totalTimeOf ru1 = (if ru1.ru_utime_sec - ru1.ru_stime_sec < 1 then 1
                       else ru1.ru_utime_sec - ru1.ru_stime_sec) ∧
    codeSizeOf 100 ru1 = some ((ru1.ru_ixrss.tdiv 100).tdiv (totalTimeOf ru1)) ∧
    dataSizeOf 100 ru1 = some ((ru1.ru_idrss.tdiv 100).tdiv (totalTimeOf ru1)) ∧
    stackSizeOf 100 ru1 = some ((ru1.ru_isrss.tdiv 100).tdiv (totalTimeOf ru1)) :=
  derived_size_computation 100 ru1 (by decide)

/-- C2: in every computed report, the printed total CPU time is exactly
the integer sum of the printed user and system CPU times. -/
theorem total_cpu_is_sum (ticks s t : Int) (ru : Rusage) (r : Report)
    (h : mkReport ticks s t ru = some r) :
    r.totalCpu = r.userCpu + r.systemCpu := by
  obtain ⟨code, data, stack, -, -, -, hr⟩ := mkReport_eq_some h
  subst hr
  rfl

/-- Witness for C2 on a concrete report. -/
theorem total_cpu_is_sum_witness :
    rZero.totalCpu = rZero.userCpu + rZero.systemCpu :=
  total_cpu_is_sum 100 100 105 ruZero rZero (by decide)

/-- C3 counterexample: on a run whose exec fails with ENOENT while every
other call succeeds, the tool exit status is 0 (not nonzero) and all 20
usage report lines are printed, with the exec diagnostic on standard
error; this refutes the claim that no report line is printed and that the
exit status is nonzero. -/
theorem exec_failure_counterexample :
    (runTool envExecFail).map Prod.fst = some 0 ∧
    (runTool envExecFail).map (fun x => x.2.1.length) = some 20 ∧
    (runTool envExecFail).map (fun x => x.2.2) =
      some [perrorLine "Exec failed: " "No such file or directory"] := by
  decide

/-- C3 amended: when the requested command cannot be located or executed,
the child prints an exec-stage diagnostic and exits -1, but the parent is
unaffected: it prints the full usage report on standard output and the
tool exit status observed by the invoker is 0. -/
theorem exec_failure_behavior (E : Env) (e : String) (s t : Int)
    (ru : Rusage) (r : Report)
    (hfork : E.forkRes = .ok ()) (hexec : E.execRes = .error e)
    (harg : 1 ≤ E.argv.length)
    (hs : E.startRes = .ok s) (ht : E.endRes = .ok t)
    (hru : E.rusageRes = .ok ru)
    (hr : mkReport E.ticksPerSecond s t ru = some r) :
    runChild E = some (ChildOutcome.failed (-1) [perrorLine "Exec failed: " e]) ∧
    runTool E = some (0, renderReport r, [perrorLine "Exec failed: " e]) := by
  obtain ⟨v, hv⟩ := cArgvAccess_of_le harg
  constructor
  · simp [runChild, hv, hexec]
  · simp [runTool, hfork, runChild, hv, hexec, runParentBody, hs, ht, hru, hr]

/-- Witness for the amended C3 on the concrete exec-failure run. -/
theorem exec_failure_behavior_witness :
    runChild envExecFail =
      some (ChildOutcome.failed (-1)
        [perrorLine "Exec failed: " "No such file or directory"]) ∧
    runTool envExecFail =
      some (0, renderReport rZero,
        [perrorLine "Exec failed: " "No such file or directory"]) :=
  exec_failure_behavior envExecFail "No such file or directory" 100 105
    ruZero rZero rfl rfl (by decide) rfl rfl rfl (by decide)

/-- C4 counterexample: invoked with no command argument (argc = 1), on a
platform whose execvp rejects the null pointer with an error return, the
tool still exits 0 and prints all 20 report lines; it does not fail with a
nonzero exit. -/
theorem no_argument_counterexample :
    cArgvAccess envNoArg.argv 1 = some none ∧
    (runTool envNoArg).map Prod.fst = some 0 ∧
    (runTool envNoArg).map (fun x => x.2.1.length) = some 20 := by
  decide

/-- C4 amended: with argc = 1, reading argv[1] is an in-bounds read of the
terminating null pointer of the argument vector, not an out-of-bounds
access; the null pointer is handed to execvp (whose response is platform
dependent), and even when that exec merely fails, the child exits -1 while
the parent prints the full usage report and the tool exits 0 rather than
failing cleanly with a nonzero exit. -/
theorem no_argument_behavior (E : Env) (e : String) (s t : Int)
    (ru : Rusage) (r : Report)
    (hargc : E.argv.length = 1)
    (hfork : E.forkRes = .ok ()) (hexec : E.execRes = .error e)
    (hs : E.startRes = .ok s) (ht : E.endRes = .ok t)
    (hru : E.rusageRes = .ok ru)
    (hr : mkReport E.ticksPerSecond s t ru = some r) :
    cArgvAccess E.argv 1 = some none ∧
    runChild E = some (ChildOutcome.failed (-1) [perrorLine "Exec failed: " e]) ∧
    runTool E = some (0, renderReport r, [perrorLine "Exec failed: " e]) := by
  have hacc : cArgvAccess E.argv 1 = some none := by
    simp [cArgvAccess, hargc]
  refine ⟨hacc, ?_, ?_⟩
  · simp [runChild, hacc, hexec]
  · simp [runTool, hfork, runChild, hacc, hexec, runParentBody, hs, ht, hru, hr]

/-- Witness for the amended C4 on the concrete no-argument run. -/
theorem no_argument_behavior_witness :
    cArgvAccess envNoArg.argv 1 = some none ∧
    runChild envNoArg =
      some (ChildOutcome.failed (-1) [perrorLine "Exec failed: " "Bad address"]) ∧
    runTool envNoArg =
      some (0, renderReport rZero, [perrorLine "Exec failed: " "Bad address"]) :=
  no_argument_behavior envNoArg "Bad address" 100 105 ruZero rZero
    rfl rfl rfl rfl rfl rfl (by decide)

/-- C5: the process that encounters a failure exits with status -1 after
printing exactly one diagnostic naming the failed stage together with the
platform error description: fork failure, exec failure inside the child
(the child exit status is -1; the parent is the exec-failure exception
treated in C3), start-clock failure, end-clock failure, getrusage failure;
and on full success the tool exits 0 with no diagnostic. -/
theorem exit_status_paths (E : Env) :
    (∀ e, E.forkRes = .error e →
      runTool E = some (-1, [], [perrorLine "Fork failed: " e])) ∧
    (∀ e, 1 ≤ E.argv.length → E.execRes = .error e →
      runChild E = some (ChildOutcome.failed (-1) [perrorLine "Exec failed: " e])) ∧
    (∀ e, E.forkRes = .ok () → E.execRes = .ok () → 1 ≤ E.argv.length →
      E.startRes = .error e →
      runTool E = some (-1, [], [perrorLine "Failed to get start time: " e])) ∧
    (∀ e s, E.forkRes = .ok () → E.execRes = .ok () → 1 ≤ E.argv.length →
      E.startRes = .ok s → E.endRes = .error e →
      runTool E = some (-1, [], [perrorLine "Failed to get end time: " e])) ∧
    (∀ e s t, E.forkRes = .ok () → E.execRes = .ok () → 1 ≤ E.argv.length →
      E.startRes = .ok s → E.endRes = .ok t → E.rusageRes = .error e →
      runTool E = some (-1, [], [perrorLine "Getrusage failed: " e])) ∧
    (∀ s t ru r, E.forkRes = .ok () → E.execRes = .ok () → 1 ≤ E.argv.length →
      E.startRes = .ok s → E.endRes = .ok t → E.rusageRes = .ok ru →
      mkReport E.ticksPerSecond s t ru = some r →
      runTool E = some (0, renderReport r, [])) := by
  refine ⟨?_, ?_, ?_, ?_, ?_, ?_⟩
  · intro e hfork
    simp [runTool, hfork]
  · intro e harg hexec
    obtain ⟨v, hv⟩ := cArgvAccess_of_le harg
    simp [runChild, hv, hexec]
  · intro e hfork hexec harg hs
    obtain ⟨v, hv⟩ := cArgvAccess_of_le harg
    simp [runTool, hfork, runChild, hv, hexec, runParentBody, hs]
  · intro e s hfork hexec harg hs ht
    obtain ⟨v, hv⟩ := cArgvAccess_of_le harg
    simp [runTool, hfork, runChild, hv, hexec, runParentBody, hs, ht]
  · intro e s t hfork hexec harg hs ht hru
    obtain ⟨v, hv⟩ := cArgvAccess_of_le harg
    simp [runTool, hfork, runChild, hv, hexec, runParentBody, hs, ht, hru]
  · intro s t ru r hfork hexec harg hs ht hru hr
    obtain ⟨v, hv⟩ := cArgvAccess_of_le harg
    simp [runTool, hfork, runChild, hv, hexec, runParentBody, hs, ht, hru, hr]

/-- Witness for C5 on four concrete runs: fork failure, exec failure in
the child, getrusage failure, and full success. -/
theorem exit_status_paths_witness :
    runTool envForkFail =
      some (-1, [], [perrorLine "Fork failed: " "Resource temporarily unavailable"]) ∧
    runChild envExecFail =
      some (ChildOutcome.failed (-1)
        [perrorLine "Exec failed: " "No such file or directory"]) ∧
    runTool envRusageFail =
      some (-1, [], [perrorLine "Getrusage failed: " "No such process"]) ∧
    runTool envOk = some (0, renderReport rZero, []) :=
  ⟨(exit_status_paths envForkFail).1 "Resource temporarily unavailable" rfl,
   (exit_status_paths envExecFail).2.1 "No such file or directory" (by decide) rfl,
   (exit_status_paths envRusageFail).2.2.2.2.1 "No such process" 100 105
     rfl rfl (by decide) rfl rfl rfl,
   (exit_status_paths envOk).2.2.2.2.2 100 105 ruZero rZero
     rfl rfl (by decide) rfl rfl rfl (by decide)⟩

/-- C6: if the getrusage query fails, the parent prints the diagnostic,
exits -1, and prints nothing on standard output, even though both
timestamps were already obtained: no partial report is emitted. -/
theorem rusage_failure_no_partial_output (E : Env) (e : String) (s t : Int)
    (hfork : E.forkRes = .ok ()) (hexec : E.execRes = .ok ())
    (harg : 1 ≤ E.argv.length)
    (hs : E.startRes = .ok s) (ht : E.endRes = .ok t)
    (hru : E.rusageRes = .error e) :
    runTool E = some (-1, [], [perrorLine "Getrusage failed: " e]) := by
  obtain ⟨v, hv⟩ := cArgvAccess_of_le harg
  simp [runTool, hfork, runChild, hv, hexec, runParentBody, hs, ht, hru]

/-- Witness for C6 on the concrete getrusage-failure run. -/
theorem rusage_failure_no_partial_output_witness :
    runTool envRusageFail =
      some (-1, [], [perrorLine "Getrusage failed: " "No such process"]) :=
  rusage_failure_no_partial_output envRusageFail "No such process" 100 105
    rfl rfl (by decide) rfl rfl rfl

/-- C7: in every computed report, including reports of zero peak memory,
the printed MB figure is the KB figure divided by 1024 and the printed GB
figure is the MB figure divided by 1024, with truncating integer
division. -/
theorem memory_unit_divisions (ticks s t : Int) (ru : Rusage) (r : Report)
    (h : mkReport ticks s t ru = some r) :
    r.memMB = r.memKB.tdiv 1024 ∧ r.memGB = r.memMB.tdiv 1024 := by
  obtain ⟨code, data, stack, -, -, -, hr⟩ := mkReport_eq_some h
  subst hr
  exact ⟨rfl, rfl⟩

/-- Witness for C7 on a zero report and on a nonzero report. -/
theorem memory_unit_divisions_witness :
    (rZero.memMB = rZero.memKB.tdiv 1024 ∧ rZero.memGB = rZero.memMB.tdiv 1024) ∧
    (r1.memMB = r1.memKB.tdiv 1024 ∧ r1.memGB = r1.memMB.tdiv 1024) :=
  ⟨memory_unit_divisions 100 100 105 ruZero rZero (by decide),
   memory_unit_divisions 100 100 105 ru1 r1 (by decide)⟩

/-- C8: the reported wall time is the end timestamp minus the start
timestamp, is nonnegative whenever the end timestamp is at least the start
timestamp, and its report line renders the whole-second value with two
zero decimal places. -/
theorem wall_time_report (ticks s t : Int) (ru : Rusage) (r : Report)
    (h : mkReport ticks s t ru = some r) (hle : s ≤ t) :
    r.wall = t - s ∧ 0 ≤ r.wall ∧
    (renderReport r)[3]? = some ("Total Wall time (s): " ++ formatFixed2 r.wall) ∧
    ∃ p, formatFixed2 r.wall = p ++ ".00" := by
  obtain ⟨code, data, stack, -, -, -, hr⟩ := mkReport_eq_some h
  subst hr
  refine ⟨rfl, by simp; omega, rfl, ?_⟩
  refine ⟨String.mk (List.replicate (6 - (toString (t - s) ++ ".00").length) ' ')
    ++ toString (t - s), ?_⟩
  simp only [formatFixed2]
  rw [String.append_assoc]

/-- Witness for C8 on the concrete success run. -/
theorem wall_time_report_witness :
    rZero.wall = 105 - 100 ∧ 0 ≤ rZero.wall ∧
    (renderReport rZero)[3]? =
      some ("Total Wall time (s): " ++ formatFixed2 rZero.wall) ∧
    ∃ p, formatFixed2 rZero.wall = p ++ ".00" :=
  wall_time_report 100 100 105 ruZero rZero (by decide) (by decide)

/-- C9: on a fully successful run the tool prints to standard output
exactly the fixed line set, in fixed order, with a blank line after the
time group, the memory group, the code group, the data group and the stack
group. -/
theorem report_fixed_line_set (E : Env) (s t : Int) (ru : Rusage) (r : Report)
    (hfork : E.forkRes = .ok ()) (hexec : E.execRes = .ok ())
    (harg : 1 ≤ E.argv.length)
    (hs : E.startRes = .ok s) (ht : E.endRes = .ok t)
    (hru : E.rusageRes = .ok ru)
    (hr : mkReport E.ticksPerSecond s t ru = some r) :
    runTool E = some (0, renderReport r, []) ∧
    renderReport r =
      ["User CPU time (s): " ++ toString r.userCpu,
       "System CPU time (s): " ++ toString r.systemCpu,
       "Total CPU time (s): " ++ toString r.totalCpu,
       "Total Wall time (s): " ++ formatFixed2 r.wall,
       "",
       "Maximum memory (KB): " ++ toString r.memKB,
       "Maximum memory (MB): " ++ toString r.memMB,
       "Maximum memory (GB): " ++ toString r.memGB,
       "",
       "Maximum code (KB): " ++ toString r.codeKB,
       "Maximum code (MB): " ++ toString r.codeMB,
       "",
       "Maximum data (KB): " ++ toString r.dataKB,
       "Maximum data (MB): " ++ toString r.dataMB,
       "",
       "Maximum stack (KB): " ++ toString r.stackKB,
       "Maximum stack (MB): " ++ toString r.stackMB,
       "",
       "Number of FS Reads : " ++ toString r.fsReads,
       "Number of FS Writes: " ++ toString r.fsWrites] := by
  obtain ⟨v, hv⟩ := cArgvAccess_of_le harg
  constructor
  · simp [runTool, hfork, runChild, hv, hexec, runParentBody, hs, ht, hru, hr]
  · rfl

/-- Witness for C9 on the concrete success run. -/
theorem report_fixed_line_set_witness :
    runTool envOk = some (0, renderReport rZero, []) ∧
    renderReport rZero =
      ["User CPU time (s): " ++ toString rZero.userCpu,
       "System CPU time (s): " ++ toString rZero.systemCpu,
       "Total CPU time (s): " ++ toString rZero.totalCpu,
       "Total Wall time (s): " ++ formatFixed2 rZero.wall,
       "",
       "Maximum memory (KB): " ++ toString rZero.memKB,
       "Maximum memory (MB): " ++ toString rZero.memMB,
       "Maximum memory (GB): " ++ toString rZero.memGB,
       "",
       "Maximum code (KB): " ++ toString rZero.codeKB,
       "Maximum code (MB): " ++ toString rZero.codeMB,
       "",
       "Maximum data (KB): " ++ toString rZero.dataKB,
       "Maximum data (MB): " ++ toString rZero.dataMB,
       "",
       "Maximum stack (KB): " ++ toString rZero.stackKB,
       "Maximum stack (MB): " ++ toString rZero.stackMB,
       "",
       "Number of FS Reads : " ++ toString rZero.fsReads,
       "Number of FS Writes: " ++ toString rZero.fsWrites] :=
  report_fixed_line_set envOk 100 105 ruZero rZero
    rfl rfl (by decide) rfl rfl rfl (by decide)

/-- C10 counterexample: with a reported tick rate of -1 the division of
findMemTickSize is defined (it yields the negated quotient), refuting the
part of the claim that calls the computation undefined when sysconf
reports -1. -/
theorem tick_rate_minus_one_defined :
    findMemTickSize (-1) 1 100 = some (-100) := by
  decide

/-- C10 amended: findMemTickSize divides by the queried tick rate without
any guard, and only the totalTime divisor is clamped elsewhere: the
division is undefined exactly when a divisor is zero, so a reported tick
rate of 0 makes it undefined, any nonzero tick rate and nonzero totalTime
make it defined, and a reported tick rate of -1 yields the defined but
meaningless negated quotient. -/
theorem tick_rate_unguarded :
    (∀ t sz : Int, findMemTickSize 0 t sz = none) ∧
    (∀ ticks t sz : Int, ticks ≠ 0 → t ≠ 0 →
      (findMemTickSize ticks t sz).isSome = true) ∧
    (∀ t sz : Int, t ≠ 0 → findMemTickSize (-1) t sz = some ((-sz).tdiv t)) := by
  refine ⟨?_, ?_, ?_⟩
  · intro t sz
    simp [findMemTickSize, cDiv]
  · intro ticks t sz hticks ht
    simp [findMemTickSize, cDiv, hticks, ht]
  · intro t sz ht
    have h1 : sz.tdiv (-1) = -sz := by
      rw [show ((-1 : Int)) = -(1 : Int) from rfl, Int.tdiv_neg, Int.tdiv_one]
    simp [findMemTickSize, cDiv, ht, h1]

/-- Witness for the amended C10 at concrete divisors. -/
theorem tick_rate_unguarded_witness :
    findMemTickSize 0 3 500 = none ∧
    (findMemTickSize 100 3 500).isSome = true ∧
    findMemTickSize (-1) 3 500 = some ((-(500 : Int)).tdiv 3) :=
  ⟨tick_rate_unguarded.1 3 500,
   tick_rate_unguarded.2.1 100 3 500 (by decide) (by decide),
   tick_rate_unguarded.2.2 3 500 (by decide)⟩

end Usage
